import Mathlib

/-!
# Verification of `SQLiteModernCpp/SQLite.h`

A shallow embedding of the SQLite wrapper layer in
`src/SQLiteModernCpp/SQLite.h`.  The native engine (sqlite3) is an external
collaborator returning integer status codes; wrapper functions are embedded
as pure Lean functions taking the native call's result as an argument and
returning the wrapper's post-state together with the value returned or the
exception raised.  Side effects on native handles (finishing a backup,
closing a resource) are recorded as explicit event lists so that ordering
properties ("finish, then raise") are statable.
-/

namespace ModernCppSQLite

/-- Native status code `SQLITE_OK` (from `sqlite3.h`). -/
def SQLITE_OK : Int := 0

/-- Native status code `SQLITE_ERROR` (from `sqlite3.h`). -/
def SQLITE_ERROR : Int := 1

/-- Native status code `SQLITE_ROW` (from `sqlite3.h`). -/
def SQLITE_ROW : Int := 100

/-- Native status code `SQLITE_DONE` (from `sqlite3.h`). -/
def SQLITE_DONE : Int := 101

/-- The error-introspection state of one native session handle: what
`sqlite3_extended_errcode` and `sqlite3_errmsg` would return for it. -/
structure ErrorState where
  extendedErrcode : Int
  errmsg : String
deriving DecidableEq, Repr

/-- `SQLiteException` (SQLite.h:80-90): `{ErrorCode, ErrorMessage}` captured
from a connection at the moment a native call fails. -/
structure SQLiteException where
  ErrorCode : Int
  ErrorMessage : String
deriving DecidableEq, Repr

/-- Constructing `SQLiteException` from a session handle's error state
(SQLite.h:85-89: `sqlite3_extended_errcode` / `sqlite3_errmsg`). -/
def exceptionOf (s : ErrorState) : SQLiteException :=
  ⟨s.extendedErrcode, s.errmsg⟩

/-! ## `SQLiteStatement::Step` (SQLite.h:412-420)

```cpp
int32_t const result = sqlite3_step(GetAbi());
if (result == SQLITE_ROW) return true;
if (result == SQLITE_DONE) return false;
ThrowLastError();
```

`ThrowLastError` (SQLite.h:383-386) sources the exception from
`sqlite3_db_handle(GetAbi())`, the statement's owning connection; its error
state is the `conn` argument below.  The native `sqlite3_step` call is
embedded by its result status `result`. -/

def SQLiteStatement.Step (result : Int) (conn : ErrorState) :
    Except SQLiteException Bool :=
  if result = SQLITE_ROW then .ok true
  else if result = SQLITE_DONE then .ok false
  else .error (exceptionOf conn)

/-! ## `SQLiteBackup::Step` (SQLite.h:222-235)

```cpp
int32_t const result = sqlite3_backup_step(GetAbi(), pages);
if (result == SQLITE_OK) return true;
if (result == SQLITE_DONE) return false;
m_Handle.Reset();
m_Destination->ThrowLastError();
```

`m_Handle.Reset()` closes (via the traits' `sqlite3_backup_finish`,
SQLite.h:194-197) and clears the handle when owning; only afterwards is
`ThrowLastError` called on the destination connection.  Both native side
effects are recorded, in program order, in an event list. -/

/-- Observable native-side events of a `SQLiteBackup::Step` call. -/
inductive BackupEvent where
  /-- `sqlite3_backup_finish` ran on backup handle `h` (via `m_Handle.Reset()`). -/
  | backupFinish (h : Nat)
  /-- An exception was raised (thrown) with payload `e`. -/
  | raised (e : SQLiteException)
deriving DecidableEq, Repr

/-- The state of a `SQLiteBackup` object (SQLite.h:189-240): the owned
backup handle (`none` = empty/finished) and the error state of the
destination connection that `m_Destination` points at. -/
structure SQLiteBackup where
  m_Handle : Option Nat
  m_Destination : ErrorState
deriving DecidableEq, Repr

/-- `SQLiteBackup::Step` (SQLite.h:222-235), embedded over the native
`sqlite3_backup_step` result status.  Returns the event list (in program
order), the post-state of the backup object, and `some b` when the function
returns `b`, `none` when it throws. -/
def SQLiteBackup.Step (b : SQLiteBackup) (result : Int) :
    List BackupEvent × SQLiteBackup × Option Bool :=
  if result = SQLITE_OK then ([], b, some true)
  else if result = SQLITE_DONE then ([], b, some false)
  else
    ((match b.m_Handle with
      | some h => [BackupEvent.backupFinish h]
      | none => []) ++ [BackupEvent.raised (exceptionOf b.m_Destination)],
     { b with m_Handle := none }, none)

/-- A caller loop driving `SQLiteBackup::Step` over a list of native step
statuses: the caller calls again while `Step` returns `true`, stops after
the first `false`, and stops when `Step` throws.  Collects the returned
booleans. -/
def runBackupSteps (b : SQLiteBackup) : List Int → List Bool
  | [] => []
  | s :: rest =>
    match b.Step s with
    | (_, b', some true) => true :: runBackupSteps b' rest
    | (_, _, some false) => [false]
    | (_, _, none) => []

/-! ## `SQLiteConnection::InternalOpen` (SQLite.h:105-116)

```cpp
SQLiteConnection temp;
if (SQLITE_OK != open(filename, temp.m_Handle.Set()))
{
  temp.ThrowLastError();
}
swap(m_Handle, temp.m_Handle);
```

The native open primitive is embedded by its status and by the session
handle it wrote into the temporary's handle slot. -/

/-- A native session handle (`sqlite3*`): pointer identity plus the error
state its introspection functions report. -/
structure SessionHandle where
  id : Nat
  err : ErrorState
deriving DecidableEq, Repr

/-- Native status code `SQLITE_NOMEM` (from `sqlite3.h`). -/
def SQLITE_NOMEM : Int := 7

/-- `SQLiteException(sqlite3*)` on a possibly-null session handle: on a null
handle `sqlite3_extended_errcode`/`sqlite3_errmsg` report out-of-memory
(engine contract for NULL arguments). -/
def exceptionOfSession : Option SessionHandle → SQLiteException
  | some s => exceptionOf s.err
  | none => ⟨SQLITE_NOMEM, "out of memory"⟩

/-- The state of a `SQLiteConnection` (SQLite.h:92-186): the owned session
handle, or `none` when empty. -/
structure SQLiteConnection where
  m_Handle : Option SessionHandle
deriving DecidableEq, Repr

/-- `explicit operator bool` of `SQLiteConnection` (SQLite.h:143-146). -/
def SQLiteConnection.toBool (c : SQLiteConnection) : Bool :=
  c.m_Handle.isSome

/-- `SQLiteConnection::InternalOpen` (SQLite.h:105-116): `status` is the
native open primitive's result and `written` the handle it stored through
the temporary's `m_Handle.Set()` slot.  Returns the post-state of `self`
and the exception raised, if any. -/
def SQLiteConnection.InternalOpen (self : SQLiteConnection) (status : Int)
    (written : Option SessionHandle) : SQLiteConnection × Option SQLiteException :=
  let temp : SQLiteConnection := ⟨written⟩
  if status ≠ SQLITE_OK then
    (self, some (exceptionOfSession temp.m_Handle))
  else
    (⟨temp.m_Handle⟩, none)

/-! ## Positional binding (SQLite.h:355-362, 535-539)

```cpp
template <typename... Values>
inline void InternalBindCpp17(Values &&... values) const
{
  [&] <size_t... Index>(std::index_sequence<Index...>)
  {
    (Bind(Index + 1, std::forward<Values>(values)), ...);
  }(std::index_sequence_for<Values...>{ });
}
```

The heterogeneous value pack is embedded as a list; the fold expression's
calls are embedded as the emitted list of `(position, value)` bind calls,
in program (left-to-right) order. -/

/-- The `(position, value)` bind calls emitted for values starting at
1-based position `start`. -/
def bindSeq (start : Nat) : List α → List (Nat × α)
  | [] => []
  | v :: rest => (start, v) :: bindSeq (start + 1) rest

/-- `SQLiteStatement::InternalBindCpp17` (SQLite.h:355-362): the pack
expansion issues `Bind(Index + 1, value_Index)` for `Index = 0, 1, ...`
left to right. -/
def SQLiteStatement.InternalBindCpp17 (values : List α) : List (Nat × α) :=
  bindSeq 1 values

/-- `SQLiteStatement::BindAll` (SQLite.h:535-539): forwards to
`InternalBindCpp17`. -/
def SQLiteStatement.BindAll (values : List α) : List (Nat × α) :=
  SQLiteStatement.InternalBindCpp17 values

/-! ## `SQLiteStatement::InternalPrepare` (SQLite.h:329-340)

```cpp
ASSERT(connection);
if (SQLITE_OK != prepare(connection.GetAbi(), text, -1, m_Handle.Set(), nullptr))
{
  connection.ThrowLastError();
}
BindAll(std::forward<Values>(values) ...);
```

The native prepare primitive is embedded by its status and the statement
handle it wrote through `m_Handle.Set()` (the engine writes NULL there on
failure). -/

/-- A native statement handle (`sqlite3_stmt*`). -/
structure StmtHandle where
  id : Nat
deriving DecidableEq, Repr

/-- The handle state of a `SQLiteStatement` (SQLite.h:316-543). -/
structure SQLiteStatement where
  m_Handle : Option StmtHandle
deriving DecidableEq, Repr

/-- `explicit operator bool` of `SQLiteStatement` (SQLite.h:373-376). -/
def SQLiteStatement.toBool (s : SQLiteStatement) : Bool :=
  s.m_Handle.isSome

/-- `SQLiteStatement::InternalPrepare` (SQLite.h:329-340): `conn` is the
connection's error state, `status` the native prepare result, `written`
the handle the prepare primitive stored through `m_Handle.Set()`.
Returns the statement's post-state, the exception raised (if any), and the
bind calls performed (none when prepare failed, since the throw precedes
`BindAll`). -/
def SQLiteStatement.InternalPrepare (conn : ErrorState) (status : Int)
    (written : Option StmtHandle) (values : List β) :
    SQLiteStatement × Option SQLiteException × List (Nat × β) :=
  if status ≠ SQLITE_OK then
    (⟨written⟩, some (exceptionOf conn), [])
  else
    (⟨written⟩, none, SQLiteStatement.BindAll values)

/-! ## Row iteration (SQLite.h:562-607)

The engine behind a prepared `SELECT` is embedded as the deterministic
state machine `StmtEngine`: a list of rows still to be produced and the row
the cursor is currently positioned on.  `nativeStep` is the engine's
`sqlite3_step` for such a statement: it yields `SQLITE_ROW` while rows are
pending and `SQLITE_DONE` at exhaustion (spec §6: step(statement) →
{row, done}).  Row content is abstract (`α`); reading the positioned row
through the `SQLiteReader` getters observes `current`. -/

/-- Engine-side state of one stepped `SELECT` statement. -/
structure StmtEngine (α : Type) where
  pending : List α
  current : Option α
deriving DecidableEq, Repr

/-- The engine's `sqlite3_step` on a row-producing statement. -/
def nativeStep : StmtEngine α → Int × StmtEngine α
  | ⟨r :: rest, _⟩ => (SQLITE_ROW, ⟨rest, some r⟩)
  | ⟨[], _⟩ => (SQLITE_DONE, ⟨[], none⟩)

/-- `SQLiteStatement::Step` (SQLite.h:412-420) driven by `nativeStep`.
Since this engine only returns `SQLITE_ROW` or `SQLITE_DONE`, the
`ThrowLastError` branch is unreachable and the returned boolean is
`result = SQLITE_ROW` (see `stepBool_agrees_Step`). -/
def stepBool (e : StmtEngine α) : Bool × StmtEngine α :=
  let (result, e') := nativeStep e
  (decide (result = SQLITE_ROW), e')

/-- The rows observed by repeatedly calling `Step` directly until it
returns `false`, reading the positioned row after each `true`.  `fuel`
bounds the loop; `pending.length + 1` is always enough. -/
def stepRowsAux : Nat → StmtEngine α → List (Option α)
  | 0, _ => []
  | fuel + 1, e =>
    let (b, e') := stepBool e
    if b then e'.current :: stepRowsAux fuel e' else []

/-- The row sequence produced by a plain `while (statement.Step())` loop. -/
def rowsViaStep (e : StmtEngine α) : List (Option α) :=
  stepRowsAux (e.pending.length + 1) e

/-- `SQLiteRowIterator` construction (SQLite.h:567-573): steps once; the
iterator holds a non-null statement reference (`some ()`) iff a row was
yielded.  `end()` (SQLite.h:604-607) is the default iterator, whose
reference is null (`none`). -/
def rowIterInit (e : StmtEngine α) : Option Unit × StmtEngine α :=
  let (b, e') := stepBool e
  (if b then some () else none, e')

/-- The canonical end sentinel: the default-constructed iterator's null
statement reference (SQLite.h:565, 604-607). -/
def rowIterEnd : Option Unit := none

/-- `SQLiteRowIterator::operator++` (SQLite.h:575-583):

```cpp
if (!m_Statement->Step())
{
  m_Statement = nullptr;
}
```

`m_Statement` is dereferenced with no null check; the result is `none`
when the advance dereferences a null reference (undefined behavior), and
`some` of the new iterator reference and engine state otherwise. -/
def rowIterAdvance (m_Statement : Option Unit) (e : StmtEngine α) :
    Option (Option Unit × StmtEngine α) :=
  match m_Statement with
  | none => none
  | some _ =>
    let (b, e') := stepBool e
    some (if b then some () else none, e')

/-- The rows observed by the range-for protocol over a constructed
iterator: while the iterator differs from the end sentinel, dereference
(`operator*` yields a `SQLiteRow` over the current position, SQLite.h:590-593)
and then advance (`operator++`). -/
def iterRowsAux : Nat → Option Unit → StmtEngine α → List (Option α)
  | 0, _, _ => []
  | fuel + 1, m_Statement, e =>
    match m_Statement with
    | none => []
    | some _ =>
      let row := e.current
      let (b, e') := stepBool e
      row :: iterRowsAux fuel (if b then some () else none) e'

/-- The row sequence produced by `for (SQLiteRow row : statement)`:
construct via `begin` (SQLite.h:599-602), then loop until the end
sentinel. -/
def rowsViaIterator (e : StmtEngine α) : List (Option α) :=
  let (it, e') := rowIterInit e
  iterRowsAux (e'.pending.length + 1) it e'

/-! ## Text binding and reading (SQLite.h:265-283, 451-481)

The four text-width overload families are embedded as an encoding
enumeration.  `Bind(index, char const*/char8_t const*)` call
`sqlite3_bind_text`; `Bind(index, wchar_t const*/char16_t const*)` call
`sqlite3_bind_text16` (SQLite.h:451-481).  `GetString`/`GetU8String` call
`sqlite3_column_text`; `GetWideString`/`GetU16String` call
`sqlite3_column_text16` (SQLite.h:265-283).  The engine stores text in its
database encoding (UTF-8) and transcodes to and from UTF-16 at the
bind/column boundary (engine contract, spec §6); text content is embedded
as a list of code units (`Nat`s): bytes for the 8-bit channels, UTF-16
code units for the 16-bit channels. -/

/-- UTF-8 encoding of one UTF-16 code unit (engine-side transcoding of
`sqlite3_bind_text16` input into UTF-8 storage). -/
def utf16UnitToUtf8 (u : Nat) : List Nat :=
  if u < 0x80 then [u]
  else if u < 0x800 then [0xC0 + u / 0x40, 0x80 + u % 0x40]
  else [0xE0 + u / 0x1000, 0x80 + u / 0x40 % 0x40, 0x80 + u % 0x40]

/-- Engine-side UTF-16 → UTF-8 transcoding (unit by unit). -/
def utf16ToUtf8 : List Nat → List Nat
  | [] => []
  | u :: rest => utf16UnitToUtf8 u ++ utf16ToUtf8 rest

/-- Engine-side UTF-8 → UTF-16 transcoding (`sqlite3_column_text16` output
from UTF-8 storage); truncated or overlong input outside the ASCII range is
cut off, which is irrelevant to the ASCII round-trip law. -/
def utf8ToUtf16 : List Nat → List Nat
  | [] => []
  | b :: rest =>
    if b < 0x80 then b :: utf8ToUtf16 rest
    else
      match rest with
      | [] => []
      | b2 :: rest2 =>
        if b < 0xE0 then (b % 0x20 * 0x40 + b2 % 0x40) :: utf8ToUtf16 rest2
        else
          match rest2 with
          | [] => []
          | b3 :: rest3 =>
            (b % 0x10 * 0x1000 + b2 % 0x40 * 0x40 + b3 % 0x40) :: utf8ToUtf16 rest3

/-- The four text-width overload families of `Bind` and the Reader
getters. -/
inductive TextEncoding
  | narrow
  | wide
  | utf8
  | utf16
deriving DecidableEq, Repr

/-- One engine text cell: the stored UTF-8 bytes. -/
structure TextCell where
  bytes : List Nat
deriving DecidableEq, Repr

/-- The cell stored by the `Bind` text overload for the given encoding
(SQLite.h:451-481): the 8-bit overloads pass bytes to `sqlite3_bind_text`
unchanged; the 16-bit overloads pass UTF-16 code units to
`sqlite3_bind_text16`, which transcodes into UTF-8 storage. -/
def bindTextValue : TextEncoding → List Nat → TextCell
  | .narrow, v => ⟨v⟩
  | .utf8, v => ⟨v⟩
  | .wide, v => ⟨utf16ToUtf8 v⟩
  | .utf16, v => ⟨utf16ToUtf8 v⟩

/-- The content returned by the matching Reader text getter for the given
encoding (SQLite.h:265-283): `GetString`/`GetU8String` return the stored
bytes via `sqlite3_column_text`; `GetWideString`/`GetU16String` return the
UTF-16 transcoding via `sqlite3_column_text16`. -/
def readTextValue : TextEncoding → TextCell → List Nat
  | .narrow, c => c.bytes
  | .utf8, c => c.bytes
  | .wide, c => utf8ToUtf16 c.bytes
  | .utf16, c => utf8ToUtf16 c.bytes

/-- Binding a cell at 1-based parameter position `i` stores it in the
engine's parameter slot `i` (slot list is 0-based, so index `i - 1`).
Spec §6: bind(statement, 1-based index, typed value). -/
def bindParamAt (params : List TextCell) (i : Nat) (c : TextCell) : List TextCell :=
  params.set (i - 1) c

/-- Reading column `col` (0-based) of a row that selects the statement's
parameters in order (`SELECT ?1, ?2, ...`): column `col` exposes parameter
`col + 1`. -/
def columnCell (params : List TextCell) (col : Nat) : Option TextCell :=
  params[col]?

/-! ## Reader length getters (SQLite.h:295-308)

```cpp
int32_t GetWideStringLength(int32_t const column = 0) const noexcept
{
  return ::sqlite3_column_bytes16(...) / sizeof(wchar_t);
}
int32_t GetU16StringLength(int32_t const column = 0) const noexcept
{
  return ::sqlite3_column_bytes16(...) / sizeof(char16_t);
}
```

`sizeof(char16_t)` is 2 everywhere; `sizeof(wchar_t)` is platform
dependent (2 on Windows, 4 on Linux) and is taken as an argument. -/

/-- `sqlite3_column_bytes16` for a text value of `units` UTF-16 code
units: two bytes per code unit (engine contract). -/
def columnBytes16 (units : Nat) : Nat := 2 * units

/-- `SQLiteReader::GetWideStringLength` (SQLite.h:295-298):
`sqlite3_column_bytes16(...) / sizeof(wchar_t)`. -/
def SQLiteReader.GetWideStringLength (bytes16 : Nat) (sizeofWchar : Nat) : Nat :=
  bytes16 / sizeofWchar

/-- `SQLiteReader::GetU16StringLength` (SQLite.h:305-308):
`sqlite3_column_bytes16(...) / sizeof(char16_t)` with
`sizeof(char16_t) = 2`. -/
def SQLiteReader.GetU16StringLength (bytes16 : Nat) : Nat :=
  bytes16 / 2

/-! ## The generic ownership handle -/

/-- Modelled from the spec: `Handle.h` (the generic `SQLiteHandle` /
`SQLiteHandleTraits` wrapper included at SQLite.h:3) is not among the
sources.  Per spec §3/§4.1: a `ResourceHandle` holds at most one native
pointer, states Empty (`none`) / Owning (`some p`); move transfers
ownership and leaves the source Empty; copy is disallowed; on
Owning→destroyed the kind-specific close operation runs exactly once. -/
structure ResourceHandle where
  ptr : Option Nat
deriving DecidableEq, Repr

/-- Modelled from the spec: `Get()` returns the current native pointer or
null if Empty (spec §4.1). -/
def ResourceHandle.Get (h : ResourceHandle) : Option Nat := h.ptr

/-- Modelled from the spec: boolean conversion is false exactly on Empty
handles (spec §3). -/
def ResourceHandle.toBool (h : ResourceHandle) : Bool := h.ptr.isSome

/-- Modelled from the spec: the close calls issued when the handle is
destroyed — exactly one close of the owned pointer when Owning, none when
Empty (spec §3). -/
def ResourceHandle.destroyEvents (h : ResourceHandle) : List Nat :=
  match h.ptr with
  | some p => [p]
  | none => []

/-- Modelled from the spec: move-construction transfers ownership to the
new handle and leaves the source Empty (spec §4.1).  Returns
`(new handle, moved-from source)`. -/
def ResourceHandle.moveCtor (src : ResourceHandle) : ResourceHandle × ResourceHandle :=
  (⟨src.ptr⟩, ⟨none⟩)

/-- Modelled from the spec: move-assignment releases what the target held,
transfers ownership from the source, and leaves the source Empty (spec
§4.1).  Returns `(target after, source after, close calls issued)`. -/
def ResourceHandle.moveAssign (dst src : ResourceHandle) :
    ResourceHandle × ResourceHandle × List Nat :=
  (⟨src.ptr⟩, ⟨none⟩, dst.destroyEvents)

/-! # Theorems -/

/-- An ok status makes the backup driver record `true` and continue. -/
theorem runBackupSteps_cons_ok (b : SQLiteBackup) (rest : List Int) :
    runBackupSteps b (SQLITE_OK :: rest) = true :: runBackupSteps b rest := rfl

/-- A done status makes the backup driver record `false` and stop. -/
theorem runBackupSteps_cons_done (b : SQLiteBackup) (rest : List Int) :
    runBackupSteps b (SQLITE_DONE :: rest) = [false] := rfl

/-- Driving `SQLiteBackup::Step` over `n` ok statuses followed by done
yields `n` times `true` followed by a single `false`. -/
theorem runBackupSteps_ok_done (b : SQLiteBackup) (n : Nat) :
    runBackupSteps b (List.replicate n SQLITE_OK ++ [SQLITE_DONE]) =
      List.replicate n true ++ [false] := by
  induction n generalizing b with
  | zero => simp [runBackupSteps_cons_done]
  | succ n ih =>
    rw [List.replicate_succ, List.cons_append, runBackupSteps_cons_ok, ih b,
      List.replicate_succ, List.cons_append]

/-- C1: `SQLiteBackup::Step` returns `true` exactly on a native ok status
and `false` exactly on a done status; driven over ok statuses until done,
`false` is returned exactly once, at completion; on any other status no
value is returned: the owned backup handle is finished (the post-state
handle is empty and the finish event precedes the raise event) and only
then is an exception sourced from the destination connection raised. -/
theorem backup_step_protocol :
    (∀ b : SQLiteBackup, b.Step SQLITE_OK = ([], b, some true)) ∧
    (∀ b : SQLiteBackup, b.Step SQLITE_DONE = ([], b, some false)) ∧
    (∀ (b : SQLiteBackup) (n : Nat),
      runBackupSteps b (List.replicate n SQLITE_OK ++ [SQLITE_DONE]) =
        List.replicate n true ++ [false]) ∧
    (∀ (b : SQLiteBackup) (h : Nat) (s : Int),
      s ≠ SQLITE_OK → s ≠ SQLITE_DONE → b.m_Handle = some h →
      b.Step s =
        ([BackupEvent.backupFinish h,
          BackupEvent.raised (exceptionOf b.m_Destination)],
         ⟨none, b.m_Destination⟩, none)) := by
  refine ⟨fun b => rfl, fun b => by simp [SQLiteBackup.Step, SQLITE_OK, SQLITE_DONE],
    runBackupSteps_ok_done, fun b h s hok hdone hh => ?_⟩
  simp [SQLiteBackup.Step, hok, hdone, hh]

/-- Witness for C1: a failing backup step on a live handle finishes the
handle and then raises the destination's error. -/
theorem backup_step_protocol_witness :
    SQLiteBackup.Step ⟨some 5, ⟨1, "e"⟩⟩ SQLITE_ERROR =
      ([BackupEvent.backupFinish 5, BackupEvent.raised ⟨1, "e"⟩],
       ⟨none, ⟨1, "e"⟩⟩, none) :=
  backup_step_protocol.2.2.2 ⟨some 5, ⟨1, "e"⟩⟩ 5 SQLITE_ERROR
    (by decide) (by decide) rfl

/-- C2: `SQLiteStatement::Step` returns `true` exactly when the native
step status is `SQLITE_ROW`, `false` exactly when it is `SQLITE_DONE`,
and raises an exception sourced from the statement's owning connection
for every other status. -/
theorem statement_step_trichotomy (result : Int) (conn : ErrorState) :
    (SQLiteStatement.Step result conn = .ok true ↔ result = SQLITE_ROW) ∧
    (SQLiteStatement.Step result conn = .ok false ↔ result = SQLITE_DONE) ∧
    (result ≠ SQLITE_ROW → result ≠ SQLITE_DONE →
      SQLiteStatement.Step result conn = .error (exceptionOf conn)) := by
  unfold SQLiteStatement.Step
  refine ⟨?_, ?_, fun h1 h2 => by simp [h1, h2]⟩ <;>
    split_ifs with h1 h2 <;> simp_all [SQLITE_ROW, SQLITE_DONE]

/-- Witness for C2: a `SQLITE_ERROR` step status raises the owning
connection's error. -/
theorem statement_step_trichotomy_witness :
    SQLiteStatement.Step SQLITE_ERROR ⟨1, "e"⟩ = .error ⟨1, "e"⟩ :=
  (statement_step_trichotomy SQLITE_ERROR ⟨1, "e"⟩).2.2 (by decide) (by decide)

/-- C3: `SQLiteConnection::InternalOpen` is atomic with respect to
failure: on a non-success status the raised exception is sourced from the
throwaway temporary's own handle (the one the open primitive populated)
and `self` is returned unchanged; only on success is the newly opened
handle swapped into `self`. -/
theorem internal_open_atomic (self : SQLiteConnection) (status : Int)
    (written : Option SessionHandle) :
    (status ≠ SQLITE_OK →
      self.InternalOpen status written = (self, some (exceptionOfSession written))) ∧
    (status = SQLITE_OK →
      self.InternalOpen status written = (⟨written⟩, none)) := by
  unfold SQLiteConnection.InternalOpen
  constructor <;> intro h <;> simp [h]

/-- Witness for C3: a failed open at status `SQLITE_ERROR` leaves the
receiving connection's handle untouched and raises from the temporary's
handle. -/
theorem internal_open_atomic_witness :
    SQLiteConnection.InternalOpen ⟨some ⟨7, ⟨0, "ok"⟩⟩⟩ SQLITE_ERROR
        (some ⟨9, ⟨14, "unable to open database file"⟩⟩) =
      (⟨some ⟨7, ⟨0, "ok"⟩⟩⟩, some ⟨14, "unable to open database file"⟩) :=
  (internal_open_atomic ⟨some ⟨7, ⟨0, "ok"⟩⟩⟩ SQLITE_ERROR
    (some ⟨9, ⟨14, "unable to open database file"⟩⟩)).1 (by decide)

/-- The `k`-th bind call emitted by `bindSeq start` targets position
`start + k` with the `k`-th value. -/
theorem bindSeq_getElem (start : Nat) (values : List α) (k : Nat) :
    (bindSeq start values)[k]? = (values[k]?).map (fun v => (start + k, v)) := by
  induction values generalizing start k with
  | nil => simp [bindSeq]
  | cons v rest ih =>
    cases k with
    | zero => simp [bindSeq]
    | succ k =>
      simp only [bindSeq, List.getElem?_cons_succ, ih (start + 1) k]
      have : start + 1 + k = start + (k + 1) := by omega
      rw [this]

/-- `bindSeq` binds exactly the given values, in order. -/
theorem bindSeq_map_snd (start : Nat) (values : List α) :
    (bindSeq start values).map Prod.snd = values := by
  induction values generalizing start with
  | nil => rfl
  | cons v rest ih => simp [bindSeq, ih (start + 1)]

/-- C4: `BindAll` (and the trailing value list of a successful `Prepare`)
performs one bind call per value, in left-to-right sequence order, and the
value at zero-based sequence index `k` is bound at one-based parameter
position `k + 1`. -/
theorem bindall_positions (values : List α) :
    (∀ k : Nat, (SQLiteStatement.BindAll values)[k]? =
      (values[k]?).map (fun v => (k + 1, v))) ∧
    (SQLiteStatement.BindAll values).map Prod.snd = values ∧
    (∀ (conn : ErrorState) (written : Option StmtHandle),
      (SQLiteStatement.InternalPrepare conn SQLITE_OK written values).2.2 =
        SQLiteStatement.BindAll values) := by
  refine ⟨fun k => ?_, bindSeq_map_snd 1 values, fun conn written => rfl⟩
  rw [SQLiteStatement.BindAll, SQLiteStatement.InternalBindCpp17,
    bindSeq_getElem 1 values k]
  simp [Nat.add_comm]

/-- C5: when the native prepare primitive fails, `InternalPrepare` raises
an exception sourced from the connection (with that connection's non-zero
extended error code), performs no binds, and leaves the statement
unprepared: its boolean conversion is `false`. -/
theorem prepare_failure_unprepared (conn : ErrorState) (status : Int)
    (written : Option StmtHandle) (values : List β)
    (hstatus : status ≠ SQLITE_OK) (hwritten : written = none)
    (hcode : conn.extendedErrcode ≠ 0) :
    (SQLiteStatement.InternalPrepare conn status written values).2.1 =
      some (exceptionOf conn) ∧
    (exceptionOf conn).ErrorCode ≠ 0 ∧
    (SQLiteStatement.InternalPrepare conn status written values).1.toBool = false ∧
    (SQLiteStatement.InternalPrepare conn status written values).2.2 = [] := by
  subst hwritten
  unfold SQLiteStatement.InternalPrepare
  simp [hstatus, SQLiteStatement.toBool, exceptionOf, hcode]

/-- Witness for C5: preparing invalid SQL (native status `SQLITE_ERROR`,
null statement handle written) raises the connection's error and leaves
the statement unprepared. -/
theorem prepare_failure_unprepared_witness :
    (SQLiteStatement.InternalPrepare ⟨1, "SQL logic error"⟩ SQLITE_ERROR none
        ([42] : List Int)).2.1 = some (exceptionOf ⟨1, "SQL logic error"⟩) ∧
    (exceptionOf (⟨1, "SQL logic error"⟩ : ErrorState)).ErrorCode ≠ 0 ∧
    (SQLiteStatement.InternalPrepare ⟨1, "SQL logic error"⟩ SQLITE_ERROR none
        ([42] : List Int)).1.toBool = false ∧
    (SQLiteStatement.InternalPrepare ⟨1, "SQL logic error"⟩ SQLITE_ERROR none
        ([42] : List Int)).2.2 = [] :=
  prepare_failure_unprepared ⟨1, "SQL logic error"⟩ SQLITE_ERROR none [42]
    (by decide) rfl (by decide)

/-- Unfolding: one direct-`Step` loop iteration on a statement with a
pending row collects that row. -/
theorem stepRowsAux_succ_cons (fuel : Nat) (a : α) (rest : List α) (cur : Option α) :
    stepRowsAux (fuel + 1) ⟨a :: rest, cur⟩ =
      some a :: stepRowsAux fuel ⟨rest, some a⟩ := rfl

/-- Unfolding: the direct-`Step` loop stops on an exhausted statement. -/
theorem stepRowsAux_succ_nil (fuel : Nat) (cur : Option α) :
    stepRowsAux (fuel + 1) (⟨[], cur⟩ : StmtEngine α) = [] := rfl

/-- Unfolding: one iterator-loop iteration on a positioned iterator with a
pending row collects the current row and stays positioned. -/
theorem iterRowsAux_succ_cons (fuel : Nat) (a : α) (rest : List α) (cur : Option α) :
    iterRowsAux (fuel + 1) (some ()) ⟨a :: rest, cur⟩ =
      cur :: iterRowsAux fuel (some ()) ⟨rest, some a⟩ := rfl

/-- Unfolding: the iterator loop stops at the end sentinel. -/
theorem iterRowsAux_none (fuel : Nat) (e : StmtEngine α) :
    iterRowsAux fuel none e = [] := by
  cases fuel <;> rfl

/-- The direct `Step` loop over a statement with `pending` rows left
observes exactly those rows, in order. -/
theorem stepRowsAux_eq (pending : List α) (cur : Option α) :
    stepRowsAux (pending.length + 1) ⟨pending, cur⟩ = pending.map some := by
  induction pending generalizing cur with
  | nil => rfl
  | cons a rest ih =>
    rw [stepRowsAux_succ_cons]
    simp only [List.length_cons]
    rw [ih (some a), List.map_cons]

/-- The iterator loop on a positioned iterator observes the current row
and then the `pending` rows, in order. -/
theorem iterRowsAux_eq (pending : List α) (cur : Option α) :
    iterRowsAux (pending.length + 1) (some ()) ⟨pending, cur⟩ =
      cur :: pending.map some := by
  induction pending generalizing cur with
  | nil => rfl
  | cons a rest ih =>
    rw [iterRowsAux_succ_cons]
    simp only [List.length_cons]
    rw [ih (some a), List.map_cons]

/-- Unfolding: a `SQLiteRowIterator` constructed on a statement with a
pending row is positioned on it. -/
theorem rowsViaIterator_cons (a : α) (rest : List α) (cur : Option α) :
    rowsViaIterator ⟨a :: rest, cur⟩ =
      iterRowsAux (rest.length + 1) (some ()) ⟨rest, some a⟩ := rfl

/-- C6: the sequence of rows produced by the `SQLiteRowIterator` protocol
(construction steps once and holds a non-null reference iff a row was
yielded; each advance steps again and nulls the reference on completion)
equals, element for element and in order, the sequence observed by calling
`Step` directly until it returns `false`; moreover on this engine
`SQLiteStatement::Step` never raises: it agrees with the boolean
`stepBool` used by both loops. -/
theorem rowiterator_refines_step (α : Type) (e : StmtEngine α) :
    rowsViaIterator e = rowsViaStep e ∧
    (∀ conn : ErrorState,
      SQLiteStatement.Step (nativeStep e).1 conn = .ok (stepBool e).1) := by
  obtain ⟨pending, cur⟩ := e
  constructor
  · cases pending with
    | nil => rfl
    | cons a rest =>
      rw [rowsViaIterator_cons, iterRowsAux_eq rest (some a)]
      show _ = rowsViaStep ⟨a :: rest, cur⟩
      rw [rowsViaStep]
      simp only [List.length_cons]
      rw [show rest.length + 1 + 1 = (a :: rest).length + 1 by simp,
        stepRowsAux_eq (a :: rest) cur, List.map_cons]
  · intro conn
    cases pending <;>
      simp [nativeStep, stepBool, SQLiteStatement.Step, SQLITE_ROW, SQLITE_DONE]

/-- C10: `SQLiteRowIterator::operator++` dereferences its stored statement
reference with no null check: advancing the end sentinel (null reference)
is undefined (`none`); under the precondition that the iterator is not the
end sentinel, the null dereference is unreachable and the advance is
defined. -/
theorem rowiterator_advance_safety (α : Type) :
    (∀ e : StmtEngine α, rowIterAdvance rowIterEnd e = none) ∧
    (∀ (it : Option Unit) (e : StmtEngine α), it ≠ rowIterEnd →
      (rowIterAdvance it e).isSome = true) := by
  refine ⟨fun e => rfl, fun it e hit => ?_⟩
  cases it with
  | none => exact absurd rfl hit
  | some u => simp [rowIterAdvance]

/-- Witness for C10: advancing a non-end iterator over a concrete engine
state is defined. -/
theorem rowiterator_advance_safety_witness :
    (rowIterAdvance (some ()) (⟨[7], none⟩ : StmtEngine Nat)).isSome = true :=
  (rowiterator_advance_safety Nat).2 (some ()) ⟨[7], none⟩ (by decide)

/-- An ASCII-range UTF-16 code unit transcodes to the single identical
UTF-8 byte. -/
theorem utf16UnitToUtf8_ascii (u : Nat) (h : u < 0x80) :
    utf16UnitToUtf8 u = [u] := by
  unfold utf16UnitToUtf8
  rw [if_pos h]

/-- UTF-16 → UTF-8 transcoding is the identity on ASCII-range content. -/
theorem utf16ToUtf8_ascii (v : List Nat) (h : ∀ u ∈ v, u < 0x80) :
    utf16ToUtf8 v = v := by
  induction v with
  | nil => rfl
  | cons u rest ih =>
    simp only [utf16ToUtf8]
    rw [utf16UnitToUtf8_ascii u (h u (by simp)),
      ih (fun x hx => h x (by simp [hx]))]
    rfl

/-- An ASCII-range leading byte decodes to the identical UTF-16 code unit
and decoding continues with the remaining bytes. -/
theorem utf8ToUtf16_cons_ascii (b : Nat) (rest : List Nat) (h : b < 0x80) :
    utf8ToUtf16 (b :: rest) = b :: utf8ToUtf16 rest := by
  rw [utf8ToUtf16.eq_def]
  simp [h]

/-- UTF-8 → UTF-16 transcoding is the identity on ASCII-range content. -/
theorem utf8ToUtf16_ascii (v : List Nat) (h : ∀ b ∈ v, b < 0x80) :
    utf8ToUtf16 v = v := by
  induction v with
  | nil => rfl
  | cons b rest ih =>
    rw [utf8ToUtf16_cons_ascii b rest (h b (by simp)),
      ih (fun x hx => h x (by simp [hx]))]

/-- C7: for every supported text encoding and ASCII-range value `v`,
binding `v` at 1-based parameter position `i` and reading column `i - 1`
of a row selecting that parameter through the matching Reader text getter
yields content identical to `v` (bind/read round-trip law). -/
theorem text_roundtrip_ascii (enc : TextEncoding) (v : List Nat)
    (params : List TextCell) (i : Nat) (_hi : 1 ≤ i)
    (hlen : i - 1 < params.length) (hv : ∀ u ∈ v, u < 0x80) :
    columnCell (bindParamAt params i (bindTextValue enc v)) (i - 1) =
      some (bindTextValue enc v) ∧
    readTextValue enc (bindTextValue enc v) = v := by
  constructor
  · rw [columnCell, bindParamAt]
    exact List.getElem?_set_eq_of_lt _ hlen
  · cases enc
    · rfl
    · show utf8ToUtf16 (utf16ToUtf8 v) = v
      rw [utf16ToUtf8_ascii v hv, utf8ToUtf16_ascii v hv]
    · rfl
    · show utf8ToUtf16 (utf16ToUtf8 v) = v
      rw [utf16ToUtf8_ascii v hv, utf8ToUtf16_ascii v hv]

/-- Witness for C7: the wide-text round trip of "hi" (code units 104,
105) bound at position 1 and read back at column 0. -/
theorem text_roundtrip_ascii_witness :
    columnCell (bindParamAt [⟨[]⟩] 1 (bindTextValue .wide [104, 105])) 0 =
      some (bindTextValue .wide [104, 105]) ∧
    readTextValue .wide (bindTextValue .wide [104, 105]) = [104, 105] :=
  text_roundtrip_ascii .wide [104, 105] [⟨[]⟩] 1 (by decide) (by decide) (by decide)

/-- Counterexample to C8 as stated: on a platform where
`sizeof(wchar_t) = 4`, a one-code-unit wide text (engine UTF-16 byte count
2) makes `GetWideStringLength` return `2 / 4 = 0`, not the 1-character
length — so the getter does not return the length in characters of the
requested encoding for every platform character-type width. -/
theorem widestring_length_counterexample :
    SQLiteReader.GetWideStringLength (columnBytes16 1) 4 = 0 ∧ (0 : Nat) ≠ 1 := by
  decide

/-- C8 (amended): both getters compute the engine's UTF-16 byte count
divided (by `Nat` division) by the size of one code unit of the requested
character type; this equals the UTF-16 code-unit count exactly when that
size is 2 — always for `char16_t`, and for `wchar_t` only on platforms
where `sizeof(wchar_t) = 2` (e.g. Windows, the `winsqlite` target). -/
theorem text_length_getters_amended :
    (∀ units : Nat, SQLiteReader.GetU16StringLength (columnBytes16 units) = units) ∧
    (∀ units : Nat,
      SQLiteReader.GetWideStringLength (columnBytes16 units) 2 = units) ∧
    (∀ bytes16 w : Nat,
      SQLiteReader.GetWideStringLength bytes16 w = bytes16 / w) := by
  refine ⟨fun units => ?_, fun units => ?_, fun bytes16 w => rfl⟩ <;>
    simp [SQLiteReader.GetU16StringLength, SQLiteReader.GetWideStringLength,
      columnBytes16]

/-- C9: moving a `ResourceHandle` in the Owning state (by
move-construction or move-assignment) transfers ownership, leaves the
moved-from value Empty — `Get()` null and boolean conversion false — and
the kind-specific close operation still runs exactly once for the owned
native pointer across the remaining lifetimes. -/
theorem resourcehandle_move_semantics (p : Nat) (dst : ResourceHandle) :
    ((ResourceHandle.moveCtor ⟨some p⟩).1.Get = some p ∧
     (ResourceHandle.moveCtor ⟨some p⟩).2.Get = none ∧
     (ResourceHandle.moveCtor ⟨some p⟩).2.toBool = false ∧
     List.count p ((ResourceHandle.moveCtor ⟨some p⟩).1.destroyEvents ++
       (ResourceHandle.moveCtor ⟨some p⟩).2.destroyEvents) = 1) ∧
    (dst.ptr ≠ some p →
      ((dst.moveAssign ⟨some p⟩).1.Get = some p ∧
       (dst.moveAssign ⟨some p⟩).2.1.Get = none ∧
       (dst.moveAssign ⟨some p⟩).2.1.toBool = false ∧
       List.count p ((dst.moveAssign ⟨some p⟩).2.2 ++
         (dst.moveAssign ⟨some p⟩).1.destroyEvents ++
         (dst.moveAssign ⟨some p⟩).2.1.destroyEvents) = 1)) := by
  constructor
  · refine ⟨rfl, rfl, rfl, ?_⟩
    simp [ResourceHandle.moveCtor, ResourceHandle.destroyEvents]
  · intro hdst
    refine ⟨rfl, rfl, rfl, ?_⟩
    simp only [ResourceHandle.moveAssign, ResourceHandle.destroyEvents]
    cases hq : dst.ptr with
    | none => simp
    | some q =>
      have hqp : q ≠ p := fun h => hdst (by rw [hq, h])
      simp [List.count_cons, hqp]

/-- Witness for C9: move-assigning an Owning handle over a handle owning a
different pointer. -/
theorem resourcehandle_move_semantics_witness :
    (ResourceHandle.moveAssign ⟨some 4⟩ ⟨some 3⟩).1.Get = some 3 ∧
    (ResourceHandle.moveAssign ⟨some 4⟩ ⟨some 3⟩).2.1.Get = none ∧
    (ResourceHandle.moveAssign ⟨some 4⟩ ⟨some 3⟩).2.1.toBool = false ∧
    List.count 3 ((ResourceHandle.moveAssign ⟨some 4⟩ ⟨some 3⟩).2.2 ++
      (ResourceHandle.moveAssign ⟨some 4⟩ ⟨some 3⟩).1.destroyEvents ++
      (ResourceHandle.moveAssign ⟨some 4⟩ ⟨some 3⟩).2.1.destroyEvents) = 1 :=
  (resourcehandle_move_semantics 3 ⟨some 4⟩).2 (by decide)

end ModernCppSQLite
